import Mathlib

/-!
Verification development for the brawlstars.js client library.

The embedding below models the cached-fetch layer of `src/Client.ts`
(`Client._fetch` and the typed accessors built on it), the relevant parts
of its JavaScript runtime environment (truthiness, `parseInt`,
`querystring.stringify`, `node-cache`'s get/set, `node-fetch`'s
`Response.ok`), and the player accessor's field-renaming step.

JSON values decoded from a response body are modelled by `JSVal`;
machine-level JS numbers are modelled as integers (`Int`), with `parseInt`
failure (`NaN`) modelled as `Option.none`.  The network is an oracle
`String → Response` mapping a request URL to the response the server would
give, and time is an explicit `Nat` parameter, so one `_fetch` call is a
pure function from (client, network, time, cache state, path, query) to a
`FetchOutcome` recording the result, whether the network was used, the
cache state afterwards, and every invocation of the cache's `set`.
-/

/-- A decoded JSON value, plus `undef` for JavaScript's `undefined`
(which can arise from reading an absent object property). -/
inductive JSVal : Type where
  | undef : JSVal
  | null : JSVal
  | bool : Bool → JSVal
  | num : Int → JSVal
  | str : String → JSVal
  | arr : List JSVal → JSVal
  | obj : List (String × JSVal) → JSVal

/-- JavaScript truthiness of a `JSVal`.  `undefined`, `null`, `false`,
`0` and `""` are falsy; every object — in particular every array, even an
empty one — is truthy. -/
def JSVal.truthy : JSVal → Bool
  | .undef => false
  | .null => false
  | .bool b => b
  | .num n => decide (n ≠ 0)
  | .str s => decide (s ≠ "")
  | .arr _ => true
  | .obj _ => true

/-- First-match association-list lookup, used both for JS object property
reads and for the cache's keyed store. -/
def lookupA {α : Type} (l : List (String × α)) (k : String) : Option α :=
  match l with
  | [] => none
  | (k2, v) :: rest => if k = k2 then some v else lookupA rest k

/-- Property read on a JS object's field list. -/
def jsGet (fs : List (String × JSVal)) (k : String) : Option JSVal :=
  lookupA fs k

/-- In-place overwrite of one field pair, keeping its position. -/
def overwritePair (k : String) (v : JSVal) (p : String × JSVal) :
    String × JSVal :=
  if p.1 = k then (k, v) else p

/-- JS property assignment `o[k] = v` on an object's field list: an
existing key is overwritten in place, a new key is appended. -/
def objSet (fs : List (String × JSVal)) (k : String) (v : JSVal) :
    List (String × JSVal) :=
  if (lookupA fs k).isSome then fs.map (overwritePair k v)
  else fs ++ [(k, v)]

/-- A primitive query-string value (`querystring.stringify` input). -/
inductive QVal : Type where
  | str : String → QVal
  | num : Int → QVal

/-- JS string conversion of a query value (`String(v)`). -/
def QVal.render : QVal → String
  | .str s => s
  | .num n => toString n

/-- Characters `querystring.escape` leaves unescaped: alphanumerics and
`- . _ ~ ! * ' ( )` (the `encodeURIComponent` unreserved set). -/
def qsUnescapedChar (c : Char) : Bool :=
  decide ((65 ≤ c.toNat ∧ c.toNat ≤ 90) ∨ (97 ≤ c.toNat ∧ c.toNat ≤ 122) ∨
    (48 ≤ c.toNat ∧ c.toNat ≤ 57) ∨ c.toNat = 45 ∨ c.toNat = 46 ∨
    c.toNat = 95 ∨ c.toNat = 126 ∨ c.toNat = 33 ∨ c.toNat = 42 ∨
    c.toNat = 39 ∨ c.toNat = 40 ∨ c.toNat = 41)

/-- UTF-8 bytes of a code point. -/
def utf8BytesOfNat (n : Nat) : List Nat :=
  if n < 128 then [n]
  else if n < 2048 then [192 + n / 64, 128 + n % 64]
  else if n < 65536 then [224 + n / 4096, 128 + (n / 64) % 64, 128 + n % 64]
  else [240 + n / 262144, 128 + (n / 4096) % 64, 128 + (n / 64) % 64,
    128 + n % 64]

/-- Upper-case hex digit. -/
def hexUpper (n : Nat) : Char :=
  Char.ofNat (if n < 10 then 48 + n else 55 + n)

/-- Percent-encoding of one byte, upper-case hex. -/
def percentEncodeByte (b : Nat) : List Char :=
  ['%', hexUpper (b / 16), hexUpper (b % 16)]

/-- `querystring.escape`: percent-encode every character outside the
unescaped set, byte by byte of its UTF-8 encoding. -/
def qsEscape (s : String) : String :=
  String.mk (s.toList.foldr
    (fun c acc =>
      (if qsUnescapedChar c then [c]
       else ((utf8BytesOfNat c.toNat).map percentEncodeByte).flatten) ++ acc)
    [])

/-- `querystring.stringify` on primitive values: `k=v` pairs joined by
`&`, in the insertion order of the object's keys — no sorting. -/
def stringify (q : List (String × QVal)) : String :=
  String.intercalate "&"
    (q.map (fun p => qsEscape p.1 ++ "=" ++ qsEscape (QVal.render p.2)))

/-- The request URL built by `Client._fetch`, which doubles as the cache
key: `this.baseURL + path + (query ? "?" + stringify(query) : "")`.
`query = none` models passing no query argument (`undefined`, falsy);
`query = some q` models passing an object, which is truthy in JS even
when it has no keys. -/
def requestKey (baseURL path : String)
    (query : Option (List (String × QVal))) : String :=
  baseURL ++ path ++
    (match query with
     | some q => "?" ++ stringify q
     | none => "")

/-- Whitespace skipped by JS `parseInt` (the common StrWhiteSpace
characters: tab, LF, VT, FF, CR, space, NBSP). -/
def jsWhitespaceChar (c : Char) : Bool :=
  decide (c.toNat = 32 ∨ c.toNat = 9 ∨ c.toNat = 10 ∨ c.toNat = 11 ∨
    c.toNat = 12 ∨ c.toNat = 13 ∨ c.toNat = 160)

/-- Decimal-digit test by code point (`'0'` to `'9'`). -/
def isDigitChar (c : Char) : Bool :=
  decide (48 ≤ c.toNat ∧ c.toNat ≤ 57)

/-- Value of a hex digit character, if it is one. -/
def digitVal16 (c : Char) : Option Nat :=
  if 48 ≤ c.toNat ∧ c.toNat ≤ 57 then some (c.toNat - 48)
  else if 97 ≤ c.toNat ∧ c.toNat ≤ 102 then some (c.toNat - 87)
  else if 65 ≤ c.toNat ∧ c.toNat ≤ 70 then some (c.toNat - 55)
  else none

/-- Value of a digit character in the given radix, if it is one. -/
def digitVal (radix : Nat) (c : Char) : Option Nat :=
  match digitVal16 c with
  | some v => if v < radix then some v else none
  | none => none

/-- Longest leading run of digits of the given radix, as digit values. -/
def takeDigits (radix : Nat) : List Char → List Nat
  | [] => []
  | c :: rest =>
    match digitVal radix c with
    | some v => v :: takeDigits radix rest
    | none => []

/-- Sign handling of JS `parseInt`: a single leading `-` or `+`. -/
def stripSign (cs : List Char) : Int × List Char :=
  match cs with
  | [] => (1, [])
  | c :: r =>
    if c = '-' then (-1, r)
    else if c = '+' then (1, r)
    else (1, c :: r)

/-- Radix inference of JS `parseInt` with no radix argument: a leading
`0x`/`0X` selects hex, otherwise decimal. -/
def stripRadix (cs : List Char) : Nat × List Char :=
  match cs with
  | c0 :: c1 :: r =>
    if c0 = '0' ∧ (c1 = 'x' ∨ c1 = 'X') then (16, r) else (10, cs)
  | _ => (10, cs)

/-- Digit-run numeric value: the longest leading digit run of `cs` in
the given radix, or `none` when there is no digit at all (JS `NaN`). -/
def parseDigits (radix : Nat) (cs : List Char) : Option Nat :=
  match takeDigits radix cs with
  | [] => none
  | ds => some (ds.foldl (fun a d => a * radix + d) 0)

/-- JS `parseInt` after whitespace stripping: sign, radix inference,
digit run. -/
def parseIntCore (cs : List Char) : Option Int :=
  match stripSign cs with
  | (sign, cs1) =>
    match stripRadix cs1 with
    | (radix, cs2) =>
      match parseDigits radix cs2 with
      | some v => some (sign * (v : Int))
      | none => none

/-- JS `parseInt(s)` (no radix argument): skip whitespace, take an
optional sign, infer the radix, read the longest digit run, ignore
everything after it; no digits at all gives `NaN`, modelled as `none`. -/
def parseIntJS (s : String) : Option Int :=
  parseIntCore (s.toList.dropWhile jsWhitespaceChar)

/-- The character list of the literal `"max-age="`. -/
def maxAgeChars : List Char :=
  ['m', 'a', 'x', '-', 'a', 'g', 'e', '=']

/-- The TTL computed by `Client._fetch` from the `Cache-Control` response
header: `cache && cache.startsWith("max-age=") ? parseInt(cache.slice(8))
: 0`.  `none` models an absent header (`headers.get` returned `null`);
the result `none` models `NaN`. -/
def computeTtl (header : Option String) : Option Int :=
  match header with
  | none => some 0
  | some s =>
    if s ≠ "" ∧ s.toList.take 8 = maxAgeChars then
      parseIntJS (String.mk (s.toList.drop 8))
    else some 0

/-- Numeric value of a decimal digit run. -/
def digitsToNat (ds : List Char) : Nat :=
  ds.foldl (fun a c => a * 10 + (c.toNat - 48)) 0

/-- The error class thrown by `Client._fetch` on a non-2xx response:
`class APIError extends Error` with `super(text)` setting `message` and
a numeric `status` field. -/
structure APIError : Type where
  message : String
  status : Nat
deriving DecidableEq

/-- The part of an HTTP response `Client._fetch` consumes: the status
line, the decoded JSON body (`response.json()` — we model bodies that
decode successfully), and the `Cache-Control` header, `none` when
absent (`headers.get` returns `null`). -/
structure Response : Type where
  status : Nat
  statusText : String
  body : JSVal
  cacheControl : Option String

/-- `node-fetch`'s `Response.ok`: status in the 2xx success range
(`status >= 200 && status < 300`). -/
def Response.ok (r : Response) : Bool :=
  decide (200 ≤ r.status ∧ r.status < 300)

/-- One entry of the `node-cache` store: the payload and the absolute
expiry instant `t` (set time plus TTL).  `node-cache` treats `t = 0` as
"no expiry". -/
structure CacheEntry : Type where
  value : JSVal
  expiresAt : Int

/-- The keyed store of the `node-cache` instance owned by the client. -/
def CacheState : Type := List (String × CacheEntry)

/-- `node-cache` `get(key)` at instant `now`: the stored value, provided
the entry exists and is not expired (`t = 0` or `now ≤ t`); an absent or
expired entry reads as `undefined`, modelled `none`. -/
def cacheGet (now : Nat) (s : CacheState) (key : String) : Option JSVal :=
  match lookupA s key with
  | some e =>
    if e.expiresAt = 0 ∨ (now : Int) ≤ e.expiresAt then some e.value
    else none
  | none => none

/-- `node-cache` `set(key, value, ttl)` at instant `now`: unconditionally
overwrites any entry for `key`, recording expiry `now + ttl`. -/
def cacheSet (s : CacheState) (key : String) (v : JSVal) (now : Nat)
    (ttl : Int) : CacheState :=
  (key, ⟨v, (now : Int) + ttl⟩) :: s.filter (fun p => p.1 ≠ key)

/-- The `Client` fields `_fetch` reads: the bearer token, whether
`this.cache` was constructed (`options.cache`), and the base URL.  The
cache's contents are threaded explicitly as a `CacheState`. -/
structure Client : Type where
  token : String
  cache : Bool
  baseURL : String

/-- Everything observable about one `_fetch` call: the value returned or
the `APIError` thrown, whether a network request was issued, the cache
state afterwards, and each invocation of the cache's `set` (key, stored
value, TTL argument). -/
structure FetchOutcome : Type where
  result : Except APIError JSVal
  network : Bool
  cache : CacheState
  setCalls : List (String × JSVal × Int)

/-- The network path of `Client._fetch`, after the cache missed: perform
the GET, throw `APIError(statusText, status)` unless `response.ok`,
otherwise decode the body, compute the TTL from `Cache-Control`, and run
`if (ttl) this.cache?.set(url, data, ttl)` — the store happens exactly
when the TTL is truthy (a nonzero number, not `NaN`) and the client owns
a cache. -/
def fetchNetwork (c : Client) (net : String → Response) (now : Nat)
    (s : CacheState) (url : String) : FetchOutcome :=
  let r := net url
  if Response.ok r = true then
    match computeTtl r.cacheControl with
    | some n =>
      if n ≠ 0 ∧ c.cache = true then
        { result := Except.ok r.body, network := true,
          cache := cacheSet s url r.body now n,
          setCalls := [(url, r.body, n)] }
      else
        { result := Except.ok r.body, network := true, cache := s,
          setCalls := [] }
    | none =>
      { result := Except.ok r.body, network := true, cache := s,
        setCalls := [] }
  else
    { result := Except.error ⟨r.statusText, r.status⟩, network := true,
      cache := s, setCalls := [] }

/-- `Client._fetch`: build the URL/cache key, read
`const exists = this.cache?.get(url)` (which is `undefined` when caching
is disabled or the key is absent/expired), return it if truthy, and
otherwise fall through to the network path. -/
def _fetch (c : Client) (net : String → Response) (now : Nat)
    (s : CacheState) (path : String)
    (query : Option (List (String × QVal))) : FetchOutcome :=
  let url := requestKey c.baseURL path query
  match (if c.cache = true then cacheGet now s url else none) with
  | some v =>
    if v.truthy = true then
      { result := Except.ok v, network := false, cache := s, setCalls := [] }
    else fetchNetwork c net now s url
  | none => fetchNetwork c net now s url

/-- Modelled from the spec: `cleanTag` lives in the repository's `utils`
module, which is not among the provided sources.  Per the spec's
tag-cleaning rule, the leading `#` of a game tag is stripped before the
tag is spliced into the (already percent-encoded) path. -/
def cleanTag (tag : String) : String :=
  match tag.toList with
  | '#' :: rest => String.mk rest
  | _ => tag

/-- The query object the ranking/member/brawler accessors build from
their destructured options: `const query = {}` followed by
`if (before) query.before = before` (and likewise `after`, `limit`), so
a key is added only when its value is truthy, in the fixed insertion
order before, after, limit. -/
def cursorQuery (before after : Option String) (limit : Option Int) :
    List (String × QVal) :=
  (match before with
   | some b => if b = "" then [] else [("before", QVal.str b)]
   | none => [])
  ++ (match after with
   | some a => if a = "" then [] else [("after", QVal.str a)]
   | none => [])
  ++ (match limit with
   | some n => if n = 0 then [] else [("limit", QVal.num n)]
   | none => [])

/-- `Client.getPlayer`: fetch `/players/%23` + cleaned tag (no query
argument), then copy the server field `3vs3Victories` onto the renamed
property `x3vs3Victories` (reading an absent field yields `undefined`).
The assignment is modelled on object bodies, the case the accessor's
type declares. -/
def getPlayer (c : Client) (net : String → Response) (now : Nat)
    (s : CacheState) (tag : String) : FetchOutcome :=
  let o := _fetch c net now s ("/players/%23" ++ cleanTag tag) none
  match o.result with
  | Except.ok (JSVal.obj fs) =>
    { o with result := Except.ok (JSVal.obj (objSet fs "x3vs3Victories"
        (match jsGet fs "3vs3Victories" with
         | some w => w
         | none => JSVal.undef))) }
  | _ => o

/-- `Client.getPlayerRankings`. -/
def getPlayerRankings (c : Client) (net : String → Response) (now : Nat)
    (s : CacheState) (country : String) (before after : Option String)
    (limit : Option Int) : FetchOutcome :=
  _fetch c net now s ("/rankings/" ++ country ++ "/players")
    (some (cursorQuery before after limit))

/-- `Client.getClubRankings`. -/
def getClubRankings (c : Client) (net : String → Response) (now : Nat)
    (s : CacheState) (country : String) (before after : Option String)
    (limit : Option Int) : FetchOutcome :=
  _fetch c net now s ("/rankings/" ++ country ++ "/clubs")
    (some (cursorQuery before after limit))

/-- `Client.getBrawlerRankings`. -/
def getBrawlerRankings (c : Client) (net : String → Response) (now : Nat)
    (s : CacheState) (country brawler : String)
    (before after : Option String) (limit : Option Int) : FetchOutcome :=
  _fetch c net now s ("/rankings/" ++ country ++ "/brawlers/" ++ brawler)
    (some (cursorQuery before after limit))

/-- `Client.getClubMembers`. -/
def getClubMembers (c : Client) (net : String → Response) (now : Nat)
    (s : CacheState) (tag : String) (before after : Option String)
    (limit : Option Int) : FetchOutcome :=
  _fetch c net now s ("/clubs/%23" ++ cleanTag tag ++ "/members")
    (some (cursorQuery before after limit))

/-- `Client.getBrawlers`: note it always passes its (possibly empty)
query object, which is truthy in JS. -/
def getBrawlers (c : Client) (net : String → Response) (now : Nat)
    (s : CacheState) (before after : Option String) (limit : Option Int) :
    FetchOutcome :=
  _fetch c net now s "/brawlers" (some (cursorQuery before after limit))

/-- `Client.getBrawler`. -/
def getBrawler (c : Client) (net : String → Response) (now : Nat)
    (s : CacheState) (id : String) : FetchOutcome :=
  _fetch c net now s ("/brawlers/" ++ id) none

/-- `Client.getMapRotation`. -/
def getMapRotation (c : Client) (net : String → Response) (now : Nat)
    (s : CacheState) : FetchOutcome :=
  _fetch c net now s "/events/rotation" none

theorem lookupA_append {α : Type} (l1 l2 : List (String × α)) (k : String) :
    lookupA (l1 ++ l2) k =
      match lookupA l1 k with
      | some v => some v
      | none => lookupA l2 k := by
  induction l1 with
  | nil => simp [lookupA]
  | cons p rest ih =>
    obtain ⟨k2, v⟩ := p
    by_cases h : k = k2
    · simp [lookupA, h]
    · simp [lookupA, h, ih]

theorem overwritePair_hit (k : String) (v : JSVal) (w : JSVal) :
    overwritePair k v (k, w) = (k, v) := by
  simp [overwritePair]

theorem overwritePair_miss (k k2 : String) (v : JSVal) (w : JSVal)
    (h : k2 ≠ k) : overwritePair k v (k2, w) = (k2, w) := by
  simp [overwritePair, h]

theorem lookupA_overwrite_self (fs : List (String × JSVal)) (k : String)
    (v : JSVal) :
    lookupA (fs.map (overwritePair k v)) k =
      if (lookupA fs k).isSome then some v else none := by
  induction fs with
  | nil => simp [lookupA]
  | cons p rest ih =>
    obtain ⟨k2, w⟩ := p
    by_cases h : k2 = k
    · subst h
      rw [List.map_cons, overwritePair_hit, lookupA, lookupA, if_pos rfl,
        if_pos rfl]
      simp
    · have h2 : k ≠ k2 := fun e => h e.symm
      rw [List.map_cons, overwritePair_miss _ _ _ _ h, lookupA, lookupA,
        if_neg h2, if_neg h2, ih]

theorem lookupA_overwrite_other (fs : List (String × JSVal)) (k k2 : String)
    (v : JSVal) (h : k2 ≠ k) :
    lookupA (fs.map (overwritePair k v)) k2 = lookupA fs k2 := by
  induction fs with
  | nil => simp [lookupA]
  | cons p rest ih =>
    obtain ⟨k3, w⟩ := p
    by_cases h3 : k3 = k
    · subst h3
      rw [List.map_cons, overwritePair_hit, lookupA, lookupA, if_neg h,
        if_neg h, ih]
    · rw [List.map_cons, overwritePair_miss _ _ _ _ h3, lookupA, lookupA, ih]

theorem lookupA_objSet_self (fs : List (String × JSVal)) (k : String)
    (v : JSVal) : lookupA (objSet fs k v) k = some v := by
  unfold objSet
  by_cases h : (lookupA fs k).isSome
  · rw [if_pos h, lookupA_overwrite_self, if_pos h]
  · rw [if_neg h, lookupA_append]
    cases hx : lookupA fs k with
    | some w => rw [hx] at h; simp at h
    | none => simp [lookupA]

theorem lookupA_objSet_other (fs : List (String × JSVal)) (k k2 : String)
    (v : JSVal) (h : k2 ≠ k) :
    lookupA (objSet fs k v) k2 = lookupA fs k2 := by
  unfold objSet
  by_cases hs : (lookupA fs k).isSome
  · rw [if_pos hs, lookupA_overwrite_other fs k k2 v h]
  · rw [if_neg hs, lookupA_append]
    cases hx : lookupA fs k2 with
    | some w => simp
    | none => simp [lookupA, h]

theorem fetch_hit (c : Client) (net : String → Response) (now : Nat)
    (s : CacheState) (path : String)
    (query : Option (List (String × QVal))) (v : JSVal)
    (hc : c.cache = true)
    (hget : cacheGet now s (requestKey c.baseURL path query) = some v)
    (htr : v.truthy = true) :
    _fetch c net now s path query =
      { result := Except.ok v, network := false, cache := s,
        setCalls := [] } := by
  simp only [_fetch]
  rw [if_pos hc, hget]
  simp [htr]

theorem fetch_falsy_hit_goes_network (c : Client) (net : String → Response)
    (now : Nat) (s : CacheState) (path : String)
    (query : Option (List (String × QVal))) (v : JSVal)
    (hc : c.cache = true)
    (hget : cacheGet now s (requestKey c.baseURL path query) = some v)
    (htr : v.truthy = false) :
    _fetch c net now s path query =
      fetchNetwork c net now s (requestKey c.baseURL path query) := by
  simp only [_fetch]
  rw [if_pos hc, hget]
  simp [htr]

theorem fetch_miss_goes_network (c : Client) (net : String → Response)
    (now : Nat) (s : CacheState) (path : String)
    (query : Option (List (String × QVal)))
    (hget : (if c.cache = true then
        cacheGet now s (requestKey c.baseURL path query) else none) = none) :
    _fetch c net now s path query =
      fetchNetwork c net now s (requestKey c.baseURL path query) := by
  simp only [_fetch]
  rw [hget]

theorem fetch_goes_network_of_network (c : Client) (net : String → Response)
    (now : Nat) (s : CacheState) (path : String)
    (query : Option (List (String × QVal)))
    (h : (_fetch c net now s path query).network = true) :
    _fetch c net now s path query =
      fetchNetwork c net now s (requestKey c.baseURL path query) := by
  cases hx : (if c.cache = true then
      cacheGet now s (requestKey c.baseURL path query) else none) with
  | none => exact fetch_miss_goes_network c net now s path query hx
  | some v =>
    by_cases hc : c.cache = true
    · rw [if_pos hc] at hx
      by_cases ht : v.truthy = true
      · rw [fetch_hit c net now s path query v hc hx ht] at h
        simp at h
      · exact fetch_falsy_hit_goes_network c net now s path query v hc hx
          (by simpa using ht)
    · rw [if_neg hc] at hx
      cases hx

theorem fetchNetwork_caches (c : Client) (net : String → Response)
    (now : Nat) (s : CacheState) (url : String) (n : Int)
    (hok : Response.ok (net url) = true)
    (httl : computeTtl (net url).cacheControl = some n)
    (hn : n ≠ 0) (hc : c.cache = true) :
    fetchNetwork c net now s url =
      { result := Except.ok (net url).body, network := true,
        cache := cacheSet s url (net url).body now n,
        setCalls := [(url, (net url).body, n)] } := by
  simp only [fetchNetwork]
  rw [if_pos hok, httl]
  simp [hn, hc]

theorem fetchNetwork_no_store (c : Client) (net : String → Response)
    (now : Nat) (s : CacheState) (url : String)
    (hok : Response.ok (net url) = true)
    (httl : computeTtl (net url).cacheControl = some 0 ∨
      computeTtl (net url).cacheControl = none) :
    fetchNetwork c net now s url =
      { result := Except.ok (net url).body, network := true, cache := s,
        setCalls := [] } := by
  simp only [fetchNetwork]
  rw [if_pos hok]
  cases httl with
  | inl h => rw [h]; simp
  | inr h => rw [h]

theorem fetchNetwork_http_error (c : Client) (net : String → Response)
    (now : Nat) (s : CacheState) (url : String)
    (hbad : Response.ok (net url) = false) :
    fetchNetwork c net now s url =
      { result := Except.error ⟨(net url).statusText, (net url).status⟩,
        network := true, cache := s, setCalls := [] } := by
  simp only [fetchNetwork]
  rw [hbad]
  simp

theorem cacheGet_cacheSet_self (s : CacheState) (url : String) (v : JSVal)
    (t t2 : Nat) (n : Int) (h : (t2 : Int) ≤ (t : Int) + n) :
    cacheGet t2 (cacheSet s url v t n) url = some v := by
  unfold cacheGet cacheSet
  rw [lookupA, if_pos rfl]
  simp [h]

theorem digitVal_ten_of_digit (c : Char) (h : isDigitChar c = true) :
    digitVal 10 c = some (c.toNat - 48) := by
  have h2 : 48 ≤ c.toNat ∧ c.toNat ≤ 57 := by simpa [isDigitChar] using h
  unfold digitVal digitVal16
  rw [if_pos h2]
  have h3 : c.toNat - 48 < 10 := by omega
  simp [h3]

theorem digitVal_ten_of_nondigit (c : Char) (h : isDigitChar c = false) :
    digitVal 10 c = none := by
  have h2 : ¬ (48 ≤ c.toNat ∧ c.toNat ≤ 57) := by simpa [isDigitChar] using h
  unfold digitVal digitVal16
  rw [if_neg h2]
  split_ifs with h3 h4
  · have : ¬ (c.toNat - 87 < 10) := by omega
    simp [this]
  · have : ¬ (c.toNat - 55 < 10) := by omega
    simp [this]
  · rfl

theorem takeDigits_digit_run (ds t : List Char)
    (hds : ∀ ch ∈ ds, isDigitChar ch = true)
    (ht : ∀ ch ∈ t.take 1, isDigitChar ch = false) :
    takeDigits 10 (ds ++ t) = ds.map (fun ch => ch.toNat - 48) := by
  induction ds with
  | nil =>
    simp only [List.nil_append, List.map_nil]
    cases t with
    | nil => rfl
    | cons c r =>
      have hc := ht c (by simp)
      unfold takeDigits
      rw [digitVal_ten_of_nondigit c hc]
  | cons c rest ih =>
    have hc := hds c (by simp)
    have ih2 := ih (fun ch hm => hds ch (by simp [hm]))
    simp only [List.cons_append, List.map_cons, takeDigits,
      digitVal_ten_of_digit c hc, List.append_eq, ih2]

theorem digit_ne_minus (c : Char) (h : isDigitChar c = true) : c ≠ '-' := by
  rintro rfl
  exact absurd h (by decide)

theorem digit_ne_plus (c : Char) (h : isDigitChar c = true) : c ≠ '+' := by
  rintro rfl
  exact absurd h (by decide)

theorem digit_ne_x (c : Char) (h : isDigitChar c = true) : c ≠ 'x' := by
  rintro rfl
  exact absurd h (by decide)

theorem digit_ne_bigX (c : Char) (h : isDigitChar c = true) : c ≠ 'X' := by
  rintro rfl
  exact absurd h (by decide)

theorem digit_not_whitespace (c : Char) (h : isDigitChar c = true) :
    jsWhitespaceChar c = false := by
  have h2 : 48 ≤ c.toNat ∧ c.toNat ≤ 57 := by simpa [isDigitChar] using h
  simp only [jsWhitespaceChar, decide_eq_false_iff_not]
  omega

theorem stripSign_digit (c : Char) (r : List Char)
    (h : isDigitChar c = true) : stripSign (c :: r) = (1, c :: r) := by
  simp only [stripSign]
  rw [if_neg (digit_ne_minus c h), if_neg (digit_ne_plus c h)]

theorem stripRadix_no_hex (cs : List Char)
    (h : ∀ c1 r, cs = '0' :: c1 :: r → c1 ≠ 'x' ∧ c1 ≠ 'X') :
    stripRadix cs = (10, cs) := by
  cases cs with
  | nil => rfl
  | cons c0 rest =>
    cases rest with
    | nil => rfl
    | cons c1 r =>
      simp only [stripRadix]
      rw [if_neg]
      intro hcond
      obtain ⟨h0, hx⟩ := hcond
      subst h0
      obtain ⟨h1, h2⟩ := h c1 r rfl
      cases hx with
      | inl e => exact h1 e
      | inr e => exact h2 e

theorem parseDigits_digit_run (ds t : List Char) (hne : ds ≠ [])
    (hds : ∀ ch ∈ ds, isDigitChar ch = true)
    (ht : ∀ ch ∈ t.take 1, isDigitChar ch = false) :
    parseDigits 10 (ds ++ t) = some (digitsToNat ds) := by
  unfold parseDigits
  rw [takeDigits_digit_run ds t hds ht]
  cases ds with
  | nil => exact absurd rfl hne
  | cons c rest =>
    simp only [List.map_cons]
    rw [show digitsToNat (c :: rest) =
      ((c :: rest).map (fun ch => ch.toNat - 48)).foldl
        (fun a d => a * 10 + d) 0 from (List.foldl_map _ _ _ _).symm]
    simp

theorem parseIntCore_digit_run (ds t : List Char) (hne : ds ≠ [])
    (hds : ∀ ch ∈ ds, isDigitChar ch = true)
    (ht : ∀ ch ∈ t.take 1, isDigitChar ch = false)
    (hradix : stripRadix (ds ++ t) = (10, ds ++ t)) :
    parseIntCore (ds ++ t) = some (digitsToNat ds) := by
  cases ds with
  | nil => exact absurd rfl hne
  | cons c rest =>
    have hc := hds c (by simp)
    have h1 : stripSign ((c :: rest) ++ t) = (1, (c :: rest) ++ t) :=
      stripSign_digit c (rest ++ t) hc
    have h2 := parseDigits_digit_run (c :: rest) t hne hds ht
    simp only [parseIntCore, h1, hradix, h2]
    simp

theorem parseIntJS_digit_run (ds t : List Char) (hne : ds ≠ [])
    (hds : ∀ ch ∈ ds, isDigitChar ch = true)
    (ht : ∀ ch ∈ t.take 1, isDigitChar ch = false)
    (hradix : stripRadix (ds ++ t) = (10, ds ++ t)) :
    parseIntJS (String.mk (ds ++ t)) = some (digitsToNat ds) := by
  unfold parseIntJS
  have hlist : (String.mk (ds ++ t)).toList = ds ++ t := rfl
  rw [hlist]
  cases ds with
  | nil => exact absurd rfl hne
  | cons c rest =>
    have hws : jsWhitespaceChar c = false := digit_not_whitespace c
      (hds c (by simp))
    rw [show ((c :: rest) ++ t) = (c :: (rest ++ t)) from rfl,
      List.dropWhile_cons]
    rw [hws]
    simp only [Bool.false_eq_true, if_false]
    exact parseIntCore_digit_run (c :: rest) t hne hds ht hradix

theorem computeTtl_max_age (ds : List Char) :
    computeTtl (some (String.mk (maxAgeChars ++ ds))) =
      parseIntJS (String.mk ds) := by
  have hne : String.mk (maxAgeChars ++ ds) ≠ "" := by
    intro h
    have h2 : maxAgeChars ++ ds = [] := by
      have := congrArg String.data h
      simpa using this
    simp [maxAgeChars] at h2
  have hlen : maxAgeChars.length = 8 := rfl
  have htake : (String.mk (maxAgeChars ++ ds)).toList.take 8 = maxAgeChars := by
    show (maxAgeChars ++ ds).take 8 = maxAgeChars
    rw [← hlen, List.take_left]
  have hdrop : (String.mk (maxAgeChars ++ ds)).toList.drop 8 = ds := by
    show (maxAgeChars ++ ds).drop 8 = ds
    rw [← hlen, List.drop_left]
  simp only [computeTtl]
  rw [if_pos ⟨hne, htake⟩, hdrop]

theorem computeTtl_no_prefix (s : String)
    (h : s.toList.take 8 ≠ maxAgeChars) : computeTtl (some s) = some 0 := by
  simp only [computeTtl]
  rw [if_neg]
  intro hcond
  exact h hcond.2

theorem stripRadix_digits (ds : List Char)
    (hds : ∀ ch ∈ ds, isDigitChar ch = true) :
    stripRadix ds = (10, ds) := by
  apply stripRadix_no_hex
  intro c1 r heq
  have hc1 : isDigitChar c1 = true := hds c1 (by rw [heq]; simp)
  exact ⟨digit_ne_x c1 hc1, digit_ne_bigX c1 hc1⟩

theorem stripRadix_digits_pos (ds t : List Char)
    (hds : ∀ ch ∈ ds, isDigitChar ch = true)
    (hpos : 0 < digitsToNat ds) :
    stripRadix (ds ++ t) = (10, ds ++ t) := by
  apply stripRadix_no_hex
  intro c1 r heq
  cases ds with
  | nil =>
    exact absurd hpos (by simp [digitsToNat])
  | cons d rest =>
    rw [List.cons_append] at heq
    injection heq with h1 h2
    subst h1
    cases rest with
    | nil =>
      exact absurd hpos (by simp [digitsToNat])
    | cons d2 rest2 =>
      rw [List.cons_append] at h2
      injection h2 with h3 h4
      subst h3
      have hc1 : isDigitChar d2 = true := hds d2 (by simp)
      exact ⟨digit_ne_x d2 hc1, digit_ne_bigX d2 hc1⟩

theorem computeTtl_digit_run (ds : List Char) (hne : ds ≠ [])
    (hds : ∀ ch ∈ ds, isDigitChar ch = true) :
    computeTtl (some (String.mk (maxAgeChars ++ ds))) =
      some (digitsToNat ds) := by
  rw [computeTtl_max_age]
  have h := parseIntJS_digit_run ds [] hne hds (by simp)
    (by rw [List.append_nil]; exact stripRadix_digits ds hds)
  rw [List.append_nil] at h
  exact h

theorem computeTtl_digit_run_trailing (ds t : List Char) (hne : ds ≠ [])
    (hds : ∀ ch ∈ ds, isDigitChar ch = true)
    (hpos : 0 < digitsToNat ds)
    (ht : ∀ ch ∈ t.take 1, isDigitChar ch = false) :
    computeTtl (some (String.mk (maxAgeChars ++ (ds ++ t)))) =
      some (digitsToNat ds) := by
  rw [computeTtl_max_age]
  exact parseIntJS_digit_run ds t hne hds ht
    (stripRadix_digits_pos ds t hds hpos)

/-- A demonstration client with caching enabled and the default base URL. -/
def demoClient : Client :=
  { token := "token", cache := true,
    baseURL := "https://api.brawlstars.com/v1" }

/-- A network whose every response is 200 OK with the JSON body `0`
(a falsy but perfectly valid JSON value) and `Cache-Control: max-age=60`. -/
def netZeroBody : String → Response := fun _ =>
  { status := 200, statusText := "OK", body := JSVal.num 0,
    cacheControl := some "max-age=60" }

/-- A network whose every response is 200 OK with the JSON body `"v"`
(a truthy string) and `Cache-Control: max-age=60`. -/
def netStrBody : String → Response := fun _ =>
  { status := 200, statusText := "OK", body := JSVal.str "v",
    cacheControl := some "max-age=60" }

/-- A network whose every response is 404 Not Found. -/
def net404 : String → Response := fun _ =>
  { status := 404, statusText := "Not Found", body := JSVal.null,
    cacheControl := none }

/-- Claim C1: with caching enabled, after a successful fetch whose
response carried a positive TTL, a second identical call within the TTL
performs no network request and returns the cached value.  The code
violates this when the decoded payload is falsy: the response body `0`
is fetched, cached under TTL 60, yet the second call at `t = 10` — well
within the TTL — still issues a network request, because the lookup
`if (exists) return exists` treats the cached `0` as a miss.  This
theorem evaluates the model at that failing input. -/
theorem c1_falsy_cached_value_refetches :
    (_fetch demoClient netZeroBody 0 [] "/players/%23AAA" none).network =
      true ∧
    (_fetch demoClient netZeroBody 0 [] "/players/%23AAA" none).result =
      Except.ok (JSVal.num 0) ∧
    (_fetch demoClient netZeroBody 0 [] "/players/%23AAA" none).setCalls =
      [("https://api.brawlstars.com/v1/players/%23AAA", JSVal.num 0, 60)] ∧
    (_fetch demoClient netZeroBody 10
      (_fetch demoClient netZeroBody 0 [] "/players/%23AAA" none).cache
      "/players/%23AAA" none).network = true :=
  ⟨rfl, rfl, rfl, rfl⟩

/-- Claim C2, counterexample: the key is built with
`querystring.stringify`, which serializes in insertion order without
sorting, so `{limit: 10, before: "abc"}` and `{before: "abc", limit: 10}`
produce different keys, and the reordered second call misses the cache
and issues a network request. -/
theorem c2_insertion_order_counterexample :
    requestKey "https://api.brawlstars.com/v1" "/rankings/us/players"
        (some [("limit", QVal.num 10), ("before", QVal.str "abc")]) ≠
      requestKey "https://api.brawlstars.com/v1" "/rankings/us/players"
        (some [("before", QVal.str "abc"), ("limit", QVal.num 10)]) ∧
    (_fetch demoClient netStrBody 1
      (_fetch demoClient netStrBody 0 [] "/rankings/us/players"
        (some [("limit", QVal.num 10), ("before", QVal.str "abc")])).cache
      "/rankings/us/players"
      (some [("before", QVal.str "abc"), ("limit", QVal.num 10)])).network =
      true :=
  ⟨by decide, rfl⟩

/-- Claim C2 as amended: two calls with the same path and the same query
pairs in the same insertion order compute the same key, and (when the
first call went to the network, succeeded with a truthy body and a
positive TTL, and the second call happens within the TTL) the second
call short-circuits on the cache with no network request, returning the
previously decoded value.  Keys only coincide for equal insertion
orders; reordered queries fragment the cache
(`c2_insertion_order_counterexample`). -/
theorem c2_same_order_short_circuits (c : Client) (net : String → Response)
    (t0 t1 : Nat) (s : CacheState) (path : String)
    (q : List (String × QVal)) (n : Int)
    (hc : c.cache = true)
    (hnet : (_fetch c net t0 s path (some q)).network = true)
    (hok : Response.ok (net (requestKey c.baseURL path (some q))) = true)
    (httl : computeTtl
      (net (requestKey c.baseURL path (some q))).cacheControl = some n)
    (hn : 0 < n)
    (htr : (net (requestKey c.baseURL path (some q))).body.truthy = true)
    (ht1 : (t1 : Int) ≤ (t0 : Int) + n) :
    _fetch c net t1 (_fetch c net t0 s path (some q)).cache path (some q) =
      { result :=
          Except.ok (net (requestKey c.baseURL path (some q))).body,
        network := false,
        cache := (_fetch c net t0 s path (some q)).cache,
        setCalls := [] } := by
  have h1 := fetch_goes_network_of_network c net t0 s path (some q) hnet
  have h2 := fetchNetwork_caches c net t0 s
    (requestKey c.baseURL path (some q)) n hok httl (by omega) hc
  rw [h1, h2]
  exact fetch_hit c net t1 _ path (some q) _ hc
    (cacheGet_cacheSet_self s (requestKey c.baseURL path (some q))
      (net (requestKey c.baseURL path (some q))).body t0 t1 n ht1) htr

/-- Witness for `c2_same_order_short_circuits` at a concrete input. -/
theorem c2_witness :
    _fetch demoClient netStrBody 1
      (_fetch demoClient netStrBody 0 [] "/rankings/us/players"
        (some [("limit", QVal.num 10), ("before", QVal.str "abc")])).cache
      "/rankings/us/players"
      (some [("limit", QVal.num 10), ("before", QVal.str "abc")]) =
      { result := Except.ok (JSVal.str "v"), network := false,
        cache := (_fetch demoClient netStrBody 0 [] "/rankings/us/players"
          (some [("limit", QVal.num 10),
            ("before", QVal.str "abc")])).cache,
        setCalls := [] } :=
  c2_same_order_short_circuits demoClient netStrBody 0 1 []
    "/rankings/us/players" [("limit", QVal.num 10), ("before", QVal.str "abc")]
    60 rfl rfl (by decide) (by decide) (by decide) (by decide) (by decide)

/-- Claim C3: the TTL derived from the `Cache-Control` header is the
unsigned integer following the literal prefix `max-age=` when the header
starts with that prefix (and an unsigned integer follows it), and is `0`
whenever the header is absent or does not start with the prefix;
`max-age=120` yields 120, `no-cache` yields 0, an absent header yields
0. -/
theorem c3_ttl_from_cache_control :
    (∀ ds : List Char, ds ≠ [] → (∀ ch ∈ ds, isDigitChar ch = true) →
      computeTtl (some (String.mk (maxAgeChars ++ ds))) =
        some (digitsToNat ds)) ∧
    (∀ s : String, s.toList.take 8 ≠ maxAgeChars →
      computeTtl (some s) = some 0) ∧
    computeTtl none = some 0 ∧
    computeTtl (some "max-age=120") = some 120 ∧
    computeTtl (some "no-cache") = some 0 :=
  ⟨fun ds hne hds => computeTtl_digit_run ds hne hds,
   fun s h => computeTtl_no_prefix s h,
   rfl, by decide, by decide⟩

/-- Witness for `c3_ttl_from_cache_control` at concrete inputs. -/
theorem c3_witness :
    computeTtl (some (String.mk (maxAgeChars ++ ['1', '2', '0']))) =
      some (digitsToNat ['1', '2', '0']) ∧
    computeTtl (some "no-cache") = some 0 :=
  ⟨c3_ttl_from_cache_control.1 ['1', '2', '0'] (by decide) (by decide),
   c3_ttl_from_cache_control.2.1 "no-cache" (by decide)⟩

/-- Claim C4: whenever the response reached over the network has a
status outside 200–299, `_fetch` fails with an `APIError` whose
`status` is the numeric status code and whose `message` is the server's
status text, and the cache is left exactly as it was (no entry is
populated, no `set` is invoked). -/
theorem c4_http_error_mapping (c : Client) (net : String → Response)
    (now : Nat) (s : CacheState) (path : String)
    (query : Option (List (String × QVal)))
    (hnet : (_fetch c net now s path query).network = true)
    (hbad : ¬ (200 ≤ (net (requestKey c.baseURL path query)).status ∧
      (net (requestKey c.baseURL path query)).status ≤ 299)) :
    _fetch c net now s path query =
      { result := Except.error
          { message := (net (requestKey c.baseURL path query)).statusText,
            status := (net (requestKey c.baseURL path query)).status },
        network := true, cache := s, setCalls := [] } := by
  rw [fetch_goes_network_of_network c net now s path query hnet]
  apply fetchNetwork_http_error
  simp only [Response.ok, decide_eq_false_iff_not]
  intro hcond
  exact hbad ⟨hcond.1, by omega⟩

/-- Witness for `c4_http_error_mapping`: a simulated 404 with status
text "Not Found". -/
theorem c4_witness :
    _fetch demoClient net404 0 [] "/clubs/%23CCC" none =
      { result := Except.error { message := "Not Found", status := 404 },
        network := true, cache := [], setCalls := [] } :=
  c4_http_error_mapping demoClient net404 0 [] "/clubs/%23CCC" none rfl
    (by decide)

theorem fetchNetwork_no_cache_client (c : Client) (net : String → Response)
    (now : Nat) (s : CacheState) (url : String) (n : Int)
    (hok : Response.ok (net url) = true)
    (httl : computeTtl (net url).cacheControl = some n)
    (hc : c.cache = false) :
    fetchNetwork c net now s url =
      { result := Except.ok (net url).body, network := true, cache := s,
        setCalls := [] } := by
  simp only [fetchNetwork]
  rw [if_pos hok, httl]
  simp [hc]

theorem fetchNetwork_setCalls_shape (c : Client) (net : String → Response)
    (now : Nat) (s : CacheState) (url : String) :
    (fetchNetwork c net now s url).setCalls = [] ∨
    ∃ n : Int, computeTtl (net url).cacheControl = some n ∧ n ≠ 0 ∧
      c.cache = true ∧
      (fetchNetwork c net now s url).setCalls =
        [(url, (net url).body, n)] := by
  by_cases hok : Response.ok (net url) = true
  · cases httl : computeTtl (net url).cacheControl with
    | some n =>
      by_cases hn : n = 0
      · left
        rw [fetchNetwork_no_store c net now s url hok (Or.inl (hn ▸ httl))]
      · by_cases hc : c.cache = true
        · right
          refine ⟨n, rfl, hn, hc, ?_⟩
          rw [fetchNetwork_caches c net now s url n hok httl hn hc]
        · left
          rw [fetchNetwork_no_cache_client c net now s url n hok httl
            (by simpa using hc)]
    | none =>
      left
      rw [fetchNetwork_no_store c net now s url hok (Or.inr httl)]
  · left
    rw [fetchNetwork_http_error c net now s url (by simpa using hok)]

/-- A network whose every response is 200 OK with
`Cache-Control: max-age=-5`, whose `parseInt` value is the negative
number -5 — a truthy value in JS. -/
def netNegativeTtl : String → Response := fun _ =>
  { status := 200, statusText := "OK", body := JSVal.str "v",
    cacheControl := some "max-age=-5" }

/-- A network whose every response is 200 OK with
`Cache-Control: no-cache`, whose computed TTL is 0. -/
def netNoCache : String → Response := fun _ =>
  { status := 200, statusText := "OK", body := JSVal.str "v",
    cacheControl := some "no-cache" }

/-- Claim C5, counterexample: the guard `if (ttl)` only filters out the
TTL values `0` and `NaN`.  The header `max-age=-5` parses to the truthy
number -5, so the cache's `set` IS invoked with a negative TTL,
refuting "set is never invoked with a computed TTL that is zero or
negative". -/
theorem c5_negative_ttl_counterexample :
    computeTtl (some "max-age=-5") = some (-5) ∧
    (fetchNetwork demoClient netNegativeTtl 7 [] "u").setCalls =
      [("u", JSVal.str "v", -5)] ∧
    ∃ e ∈ (fetchNetwork demoClient netNegativeTtl 7 [] "u").setCalls,
      e.2.2 ≤ 0 := by
  have hset : (fetchNetwork demoClient netNegativeTtl 7 [] "u").setCalls =
      [("u", JSVal.str "v", -5)] := rfl
  exact ⟨by decide, hset, ⟨("u", JSVal.str "v", -5),
    by rw [hset]; exact List.mem_singleton.mpr rfl, by decide⟩⟩

/-- Claim C5 as amended: the fetch layer skips the cache store whenever
the computed TTL is `0` or `NaN` (and every `set` it does invoke carries
a nonzero TTL), but a negative parsed TTL — e.g. from `max-age=-5` — is
truthy and does reach `set`
(`c5_negative_ttl_counterexample`). -/
theorem c5_set_skipped_on_zero_or_nan (c : Client) (net : String → Response)
    (now : Nat) (s : CacheState) (url : String) :
    ((computeTtl (net url).cacheControl = some 0 ∨
        computeTtl (net url).cacheControl = none) →
      (fetchNetwork c net now s url).setCalls = []) ∧
    (∀ e ∈ (fetchNetwork c net now s url).setCalls, e.2.2 ≠ 0) := by
  constructor
  · intro h
    by_cases hok : Response.ok (net url) = true
    · rw [fetchNetwork_no_store c net now s url hok h]
    · rw [fetchNetwork_http_error c net now s url (by simpa using hok)]
  · intro e he
    rcases fetchNetwork_setCalls_shape c net now s url with hnil | hcons
    · rw [hnil] at he
      cases he
    · obtain ⟨n, _, hn, _, heq⟩ := hcons
      rw [heq] at he
      rw [List.mem_singleton.mp he]
      exact hn

/-- Witness for `c5_set_skipped_on_zero_or_nan`: a `no-cache` header
computes TTL 0 and no `set` happens. -/
theorem c5_witness :
    (fetchNetwork demoClient netNoCache 0 [] "u").setCalls = [] :=
  (c5_set_skipped_on_zero_or_nan demoClient netNoCache 0 [] "u").1
    (Or.inl (by decide))

/-- A cache holding an empty array (decoded JSON `[]`) for the brawler
URL, far from expiry. -/
def emptyArrayCache : CacheState :=
  [("https://api.brawlstars.com/v1/brawlers/16000000",
    ⟨JSVal.arr [], 1000⟩)]

/-- Claim C6, counterexample: an empty array is an object and therefore
TRUTHY in JavaScript, so a cached `[]` is served from the cache with no
network request — the claim wrongly lists the empty array among the
falsy payloads treated as a miss. -/
theorem c6_empty_array_counterexample :
    (_fetch demoClient net404 5 emptyArrayCache "/brawlers/16000000"
      none).network = false ∧
    (_fetch demoClient net404 5 emptyArrayCache "/brawlers/16000000"
      none).result = Except.ok (JSVal.arr []) :=
  ⟨rfl, rfl⟩

/-- Claim C6 as amended: the lookup is a truthy check, so a present and
unexpired cached value short-circuits the call if and only if it is
truthy; a cached `0`, `false`, `null` or `""` is treated as a miss and
triggers a new network request, but an empty array (an object, hence
truthy) is a hit. -/
theorem c6_truthy_gate (c : Client) (net : String → Response) (now : Nat)
    (s : CacheState) (path : String)
    (query : Option (List (String × QVal))) (v : JSVal)
    (hc : c.cache = true)
    (hget : cacheGet now s (requestKey c.baseURL path query) = some v) :
    (v.truthy = true →
      _fetch c net now s path query =
        { result := Except.ok v, network := false, cache := s,
          setCalls := [] }) ∧
    (v.truthy = false →
      _fetch c net now s path query =
        fetchNetwork c net now s (requestKey c.baseURL path query)) ∧
    JSVal.truthy (JSVal.arr []) = true ∧
    JSVal.truthy (JSVal.num 0) = false ∧
    JSVal.truthy (JSVal.bool false) = false ∧
    JSVal.truthy JSVal.null = false :=
  ⟨fun ht => fetch_hit c net now s path query v hc hget ht,
   fun ht => fetch_falsy_hit_goes_network c net now s path query v hc hget ht,
   by decide, by decide, by decide, by decide⟩

/-- A cache holding a truthy string for the rotation URL. -/
def strCache : CacheState :=
  [("https://api.brawlstars.com/v1/events/rotation",
    ⟨JSVal.str "x", 50⟩)]

/-- Witness for `c6_truthy_gate`: a truthy cached string is returned
with no network request. -/
theorem c6_witness :
    _fetch demoClient net404 3 strCache "/events/rotation" none =
      { result := Except.ok (JSVal.str "x"), network := false,
        cache := strCache, setCalls := [] } :=
  (c6_truthy_gate demoClient net404 3 strCache "/events/rotation" none
    (JSVal.str "x") rfl rfl).1 rfl

/-- A network distinguishing the URL with the dangling `?`: only the
exact URL `.../brawlers?` answers with the body `"probe"`. -/
def netBrawlersProbe : String → Response := fun u =>
  if u = "https://api.brawlstars.com/v1/brawlers?" then
    { status := 200, statusText := "OK", body := JSVal.str "probe",
      cacheControl := some "no-store" }
  else
    { status := 200, statusText := "OK", body := JSVal.str "other",
      cacheControl := some "no-store" }

/-- Claim C7, counterexample: `_fetch` appends the separator whenever a
query OBJECT is passed, because any object — even `{}` — is truthy in
JS; every cursor accessor always passes its (possibly empty) query
object, so `getBrawlers()` with no parameters requests
`.../brawlers?` with a dangling separator, refuting "no query-string
separator is appended when the query mapping is absent or empty". -/
theorem c7_empty_query_counterexample :
    requestKey "https://api.brawlstars.com/v1" "/brawlers" (some []) ≠
      "https://api.brawlstars.com/v1" ++ "/brawlers" ∧
    requestKey "https://api.brawlstars.com/v1" "/brawlers" (some []) =
      "https://api.brawlstars.com/v1/brawlers?" ∧
    (getBrawlers demoClient netBrawlersProbe 0 [] none none
      none).result = Except.ok (JSVal.str "probe") :=
  ⟨by decide, rfl, rfl⟩

/-- Claim C7 as amended: the separator is omitted exactly when the query
argument is absent (`undefined`); when a query object is passed — as
every cursor accessor always does — a `?` is appended even if the
object is empty, followed by the (possibly empty) serialized query
string. -/
theorem c7_separator_iff_query_object (base path : String)
    (q : List (String × QVal)) :
    requestKey base path none = base ++ path ∧
    requestKey base path (some q) =
      base ++ path ++ "?" ++ stringify q ∧
    stringify [] = "" := by
  refine ⟨?_, ?_, rfl⟩
  · show base ++ path ++ "" = base ++ path
    rw [String.append_empty]
  · show base ++ path ++ ("?" ++ stringify q) =
      base ++ path ++ "?" ++ stringify q
    rw [← String.append_assoc]

theorem lookupA_cursorQuery_before (before after : Option String)
    (limit : Option Int) :
    lookupA (cursorQuery before after limit) "before" =
      match before with
      | some b => if b = "" then none else some (QVal.str b)
      | none => none := by
  rcases before with _ | b <;> rcases after with _ | a <;>
    rcases limit with _ | n <;> simp only [cursorQuery] <;>
    (try split_ifs) <;> simp_all [lookupA_append, lookupA]

theorem lookupA_cursorQuery_after (before after : Option String)
    (limit : Option Int) :
    lookupA (cursorQuery before after limit) "after" =
      match after with
      | some a => if a = "" then none else some (QVal.str a)
      | none => none := by
  rcases before with _ | b <;> rcases after with _ | a <;>
    rcases limit with _ | n <;> simp only [cursorQuery] <;>
    (try split_ifs) <;> simp_all [lookupA_append, lookupA]

theorem lookupA_cursorQuery_limit (before after : Option String)
    (limit : Option Int) :
    lookupA (cursorQuery before after limit) "limit" =
      match limit with
      | some n => if n = 0 then none else some (QVal.num n)
      | none => none := by
  rcases before with _ | b <;> rcases after with _ | a <;>
    rcases limit with _ | n <;> simp only [cursorQuery] <;>
    (try split_ifs) <;> simp_all [lookupA_append, lookupA]

/-- Claim C8, counterexample: the cursor accessors build their query
with truthy checks (`if (limit) query.limit = limit`), so the PRESENT
but falsy values `limit = 0` and `before = ""` are dropped from the
query instead of being passed through verbatim. -/
theorem c8_falsy_param_counterexample :
    cursorQuery none none (some 0) = [] ∧
    lookupA (cursorQuery none none (some 0)) "limit" = none ∧
    cursorQuery (some "") none none = [] ∧
    stringify (cursorQuery none none (some 0)) = "" :=
  ⟨rfl, rfl, rfl, rfl⟩

/-- Claim C8 as amended: each of `before`, `after`, `limit` appears in
the query mapping, verbatim under its own key, exactly when it is
present AND truthy; an absent (`undefined`) value is omitted — never
serialized as the literal string "undefined" — but so are the present
falsy values `""` and `0` (`c8_falsy_param_counterexample`). -/
theorem c8_cursor_params (before after : Option String)
    (limit : Option Int) :
    (lookupA (cursorQuery before after limit) "before" =
      match before with
      | some b => if b = "" then none else some (QVal.str b)
      | none => none) ∧
    (lookupA (cursorQuery before after limit) "after" =
      match after with
      | some a => if a = "" then none else some (QVal.str a)
      | none => none) ∧
    (lookupA (cursorQuery before after limit) "limit" =
      match limit with
      | some n => if n = 0 then none else some (QVal.num n)
      | none => none) :=
  ⟨lookupA_cursorQuery_before before after limit,
   lookupA_cursorQuery_after before after limit,
   lookupA_cursorQuery_limit before after limit⟩

/-- Claim C9: `getPlayer` requests `/players/%23` followed by the
cleaned tag (leading `#` stripped; the `%23` in the path template is the
percent-encoded `#`), and on an object body containing the server field
`3vs3Victories` it returns that object with the field's value copied
onto the renamed property `x3vs3Victories`, every other field preserved
verbatim. -/
theorem c9_get_player (c : Client) (net : String → Response) (now : Nat)
    (s : CacheState) (tag : String) (fs : List (String × JSVal)) (w : JSVal)
    (hres : (_fetch c net now s ("/players/%23" ++ cleanTag tag)
      none).result = Except.ok (JSVal.obj fs))
    (hw : jsGet fs "3vs3Victories" = some w) :
    (getPlayer c net now s tag).result =
      Except.ok (JSVal.obj (objSet fs "x3vs3Victories" w)) ∧
    jsGet (objSet fs "x3vs3Victories" w) "x3vs3Victories" = some w ∧
    (∀ k, k ≠ "x3vs3Victories" →
      jsGet (objSet fs "x3vs3Victories" w) k = jsGet fs k) ∧
    requestKey c.baseURL ("/players/%23" ++ cleanTag tag) none =
      c.baseURL ++ "/players/%23" ++ cleanTag tag ∧
    cleanTag "#2Q0VVCJ2" = "2Q0VVCJ2" := by
  refine ⟨?_, lookupA_objSet_self fs _ w,
    fun k hk => lookupA_objSet_other fs _ k w hk, ?_, rfl⟩
  · simp only [getPlayer]
    rw [hres]
    simp [hw]
  · show c.baseURL ++ ("/players/%23" ++ cleanTag tag) ++ "" =
      c.baseURL ++ "/players/%23" ++ cleanTag tag
    rw [String.append_empty, ← String.append_assoc]

/-- A network returning the player object for every URL, with the
server-named field `3vs3Victories`. -/
def netPlayer : String → Response := fun _ =>
  { status := 200, statusText := "OK",
    body := JSVal.obj [("tag", JSVal.str "#2Q0VVCJ2"),
      ("3vs3Victories", JSVal.num 100), ("trophies", JSVal.num 5000)],
    cacheControl := none }

/-- Witness for `c9_get_player` at the tag of the spec's end-to-end
scenario: the renamed field is appended, the others preserved. -/
theorem c9_witness :
    (getPlayer demoClient netPlayer 0 [] "#2Q0VVCJ2").result =
      Except.ok (JSVal.obj [("tag", JSVal.str "#2Q0VVCJ2"),
        ("3vs3Victories", JSVal.num 100), ("trophies", JSVal.num 5000),
        ("x3vs3Victories", JSVal.num 100)]) :=
  (c9_get_player demoClient netPlayer 0 [] "#2Q0VVCJ2"
    [("tag", JSVal.str "#2Q0VVCJ2"), ("3vs3Victories", JSVal.num 100),
      ("trophies", JSVal.num 5000)] (JSVal.num 100) rfl rfl).1

/-- A network whose every response is 200 OK with
`Cache-Control: max-age=120, must-revalidate`. -/
def netTrailing : String → Response := fun _ =>
  { status := 200, statusText := "OK", body := JSVal.str "v",
    cacheControl := some "max-age=120, must-revalidate" }

/-- A network whose every response is 200 OK with
`Cache-Control: max-age=0, must-revalidate`. -/
def netZeroRun : String → Response := fun _ =>
  { status := 200, statusText := "OK", body := JSVal.str "v",
    cacheControl := some "max-age=0, must-revalidate" }

/-- Claim C10, counterexample: for the header
`max-age=0, must-revalidate` the leading digit run parses to 0, and the
response is then NOT cached (no `set` call, cache unchanged), refuting
the claim's "the response is cached under that TTL" for zero-valued
runs. -/
theorem c10_zero_run_counterexample :
    computeTtl (some "max-age=0, must-revalidate") = some 0 ∧
    (fetchNetwork demoClient netZeroRun 0 [] "u").setCalls = [] ∧
    (fetchNetwork demoClient netZeroRun 0 [] "u").cache = [] :=
  ⟨by decide, rfl, rfl⟩

/-- Claim C10 as amended: for a header `max-age=` followed by a digit
run with POSITIVE value and then trailing non-digit characters, the
computed TTL is the value of the leading run (`parseInt` ignores the
trailer) and, with caching enabled, the ok response is stored under
exactly that TTL; a zero-valued run yields TTL 0 and is not cached
(`c10_zero_run_counterexample`). -/
theorem c10_trailing_garbage_ttl (c : Client) (net : String → Response)
    (now : Nat) (s : CacheState) (url : String) (ds t : List Char)
    (hc : c.cache = true)
    (hok : Response.ok (net url) = true)
    (hcc : (net url).cacheControl =
      some (String.mk (maxAgeChars ++ (ds ++ t))))
    (hne : ds ≠ []) (hds : ∀ ch ∈ ds, isDigitChar ch = true)
    (hpos : 0 < digitsToNat ds)
    (ht : ∀ ch ∈ t.take 1, isDigitChar ch = false) :
    computeTtl (net url).cacheControl = some (digitsToNat ds) ∧
    fetchNetwork c net now s url =
      { result := Except.ok (net url).body, network := true,
        cache := cacheSet s url (net url).body now (digitsToNat ds),
        setCalls := [(url, (net url).body, (digitsToNat ds : Int))] } := by
  have httl : computeTtl (net url).cacheControl =
      some (digitsToNat ds) := by
    rw [hcc]
    exact computeTtl_digit_run_trailing ds t hne hds hpos ht
  exact ⟨httl, fetchNetwork_caches c net now s url (digitsToNat ds) hok
    httl (by omega) hc⟩

/-- Witness for `c10_trailing_garbage_ttl` at the header
`max-age=120, must-revalidate`. -/
theorem c10_witness :
    computeTtl (netTrailing "u").cacheControl = some 120 :=
  (c10_trailing_garbage_ttl demoClient netTrailing 0 [] "u"
    ['1', '2', '0']
    [',', ' ', 'm', 'u', 's', 't', '-', 'r', 'e', 'v', 'a', 'l', 'i',
      'd', 'a', 't', 'e']
    rfl (by decide) rfl (by decide) (by decide) (by decide)
    (by decide)).1
